import Mathlib

/-!
# Verification of the browsercookie-rs cookie-extraction engine

A shallow embedding of `src/lib.rs` (the `CookieFinderBuilder` / `CookieFinder`
configuration and extraction engine) together with spec-modelled versions of
the collaborators that live outside the embedded file: the `firefox` store
reader module, the store locator, and the external regex and cookie-jar
collaborators, each modelled from the contract the design document states
for them.
-/

deriving instance DecidableEq for Except

/-- All supported browsers (`enum Browser` in `src/lib.rs`, a single variant). -/
inductive Browser where
  | Firefox : Browser
deriving DecidableEq, Repr

/-- `Browser::iter()` from the derived `EnumIter`: enumerates every variant. -/
def Browser.iter : List Browser := [Browser.Firefox]

/-- Cookie record fields a pattern filter can be evaluated against
(`enum Attribute` in `src/lib.rs`). -/
inductive Attribute where
  | Name : Attribute
  | Value : Attribute
  | Domain : Attribute
  | Path : Attribute
deriving DecidableEq, Repr

/-- Model of the external regex collaborator: a compiled pattern is carried as
its source text; matching itself is an opaque predicate supplied by the
environment (the design treats the regex engine as an opaque matcher). -/
structure Regex where
  pattern : String
deriving DecidableEq, Repr

/-- Syntactic validity scan for a regex pattern, modelling the external
collaborator compilation check that `Regex::new` performs: rejects unbalanced
groups, a dangling quantifier and a trailing escape.  `depth` counts open
groups, `canQ` records whether a quantifier may appear here. -/
def regexScan : List Char → Nat → Bool → Bool
  | [], depth, _ => depth == 0
  | c :: rest, depth, canQ =>
    if c = '\\' then
      match rest with
      | [] => false
      | _ :: rest2 => regexScan rest2 depth true
    else if c = '(' then regexScan rest (depth + 1) false
    else if c = ')' then
      match depth with
      | 0 => false
      | d + 1 => regexScan rest d true
    else if c = '*' || c = '+' || c = '?' then canQ && regexScan rest depth false
    else if c = '|' then regexScan rest depth false
    else regexScan rest depth true

/-- `Regex::new`: compile a pattern, failing on an invalid one (the failure
models the `Err` the external regex collaborator returns). -/
def Regex.new (s : String) : Option Regex :=
  if regexScan s.data 0 false then some ⟨s⟩ else none

/-- A cookie record (name, value, and the optional attributes a store row
carries). -/
structure Cookie where
  name : String
  value : String
  domain : Option String
  path : Option String
deriving DecidableEq, Repr

/-- Model of the external cookie-container collaborator (`cookie::CookieJar`):
an associative container keyed by cookie name where a later insertion of the
same name replaces the earlier record. -/
structure CookieJar where
  cookies : List Cookie
deriving DecidableEq, Repr

/-- `CookieJar::new()`: the empty jar. -/
def CookieJar.new : CookieJar := ⟨[]⟩

/-- `CookieJar::add`: insert a cookie, replacing any record of the same name. -/
def CookieJar.add (jar : CookieJar) (c : Cookie) : CookieJar :=
  ⟨c :: jar.cookies.filter (fun d => d.name != c.name)⟩

/-- `CookieJar::get`: look a cookie up by name. -/
def CookieJar.get (jar : CookieJar) (n : String) : Option Cookie :=
  jar.cookies.find? (fun c => c.name == n)

/-- Number of records stored under a given name. -/
def CookieJar.countName (jar : CookieJar) (n : String) : Nat :=
  jar.cookies.countP (fun c => c.name == n)

/-- The two store-reader failure kinds of the design: a store that is absent
or unopenable, and a store that opens but has an unexpected schema. -/
inductive StoreError where
  | StoreUnavailable : StoreError
  | FormatError : StoreError
deriving DecidableEq, Repr

/-- The filesystem and matcher environment a `find` run executes against:
the per-browser default profile-store locations the locator would discover,
the contents (or failure) behind each store path, and the opaque regex
match predicate. -/
structure Env where
  defaultLocations : Browser → List String
  readStore : String → Except StoreError (List Cookie)
  isMatch : String → String → Bool

/-- Modelled from the spec: the Store Locator contract of the design
document — an override path, when present, yields exactly that single
location; otherwise the browser's conventional profile-store locations
are returned. -/
def locate (env : Env) (browser : Browser) (override : Option String) :
    List String :=
  match override with
  | some p => [p]
  | none => env.defaultLocations browser

/-- Modelled from the spec: the Attribute Matcher resolves an attribute to
the record field, treating an absent optional field as the empty string. -/
def attributeField (c : Cookie) : Attribute → String
  | Attribute.Name => c.name
  | Attribute.Value => c.value
  | Attribute.Domain => c.domain.getD ""
  | Attribute.Path => c.path.getD ""

/-- Modelled from the spec: a record matches a filter pair when the pattern
matches the selected attribute field. -/
def matchesRecord (env : Env) (c : Cookie) (pair : Regex × Attribute) : Bool :=
  env.isMatch pair.1.pattern (attributeField c pair.2)

/-- Modelled from the spec: one step of the `firefox` store reader over a
location list — an unavailable store contributes nothing, a format error
fails the whole read, and a readable store's matching records are inserted
into the jar. -/
def loadLocations (env : Env) (pair : Regex × Attribute) :
    List String → CookieJar → Except StoreError CookieJar
  | [], jar => Except.ok jar
  | loc :: rest, jar =>
    match env.readStore loc with
    | Except.error StoreError.StoreUnavailable => loadLocations env pair rest jar
    | Except.error StoreError.FormatError => Except.error StoreError.FormatError
    | Except.ok records =>
      loadLocations env pair rest
        (records.foldl
          (fun j c => if matchesRecord env c pair then CookieJar.add j c else j)
          jar)

/-- Modelled from the spec: `firefox::load` (the module `firefox` is declared
in `src/lib.rs` but its file is not part of the embedded sources) — locate
the Firefox stores from the optional master path, then read each one. -/
def firefoxLoad (env : Env) (jar : CookieJar) (pair : Regex × Attribute)
    (masterPath : Option String) : Except StoreError CookieJar :=
  loadLocations env pair (locate env Browser.Firefox masterPath) jar

/-- `struct CookieFinder` from `src/lib.rs`: the built, immutable extraction
configuration.  The Rust `HashSet<Browser>` is carried as a duplicate-free
list. -/
structure CookieFinder where
  regex_and_attribute_pairs : List (Regex × Attribute)
  browsers : List Browser
  master_path : Option String
deriving DecidableEq, Repr

/-- `struct CookieFinderBuilder` from `src/lib.rs`. -/
structure CookieFinderBuilder where
  cookie_finder : CookieFinder
deriving DecidableEq, Repr

/-- `CookieFinderBuilder::default()`. -/
def CookieFinderBuilder.default : CookieFinderBuilder :=
  ⟨⟨[], [], none⟩⟩

/-- `HashSet::insert` on the browser set: a present value is left alone. -/
def browserInsert (s : List Browser) (b : Browser) : List Browser :=
  if b ∈ s then s else s ++ [b]

/-- `CookieFinderBuilder::with_regexp`: push one (regex, attribute) pair. -/
def CookieFinderBuilder.with_regexp (self : CookieFinderBuilder) (regex : Regex)
    (attrib : Attribute) : CookieFinderBuilder :=
  ⟨{ self.cookie_finder with
      regex_and_attribute_pairs :=
        self.cookie_finder.regex_and_attribute_pairs ++ [(regex, attrib)] }⟩

/-- `CookieFinderBuilder::with_browser`: insert one browser into the set. -/
def CookieFinderBuilder.with_browser (self : CookieFinderBuilder)
    (browser : Browser) : CookieFinderBuilder :=
  ⟨{ self.cookie_finder with
      browsers := browserInsert self.cookie_finder.browsers browser }⟩

/-- `CookieFinderBuilder::with_master_path`: record the override path. -/
def CookieFinderBuilder.with_master_path (self : CookieFinderBuilder)
    (master_path : String) : CookieFinderBuilder :=
  ⟨{ self.cookie_finder with master_path := some master_path }⟩

/-- `CookieFinderBuilder::build`: inject the default filter pair
(`Regex::new(".*").unwrap()` against `Attribute::Name`) when none was added,
and every `Browser::iter()` variant when no browser was added.  The `none`
result is the panic of the `unwrap` on a failed default-pattern compile. -/
def CookieFinderBuilder.build (self : CookieFinderBuilder) :
    Option CookieFinder :=
  let cf := self.cookie_finder
  let pairsOpt : Option (List (Regex × Attribute)) :=
    if cf.regex_and_attribute_pairs.isEmpty then
      match Regex.new ".*" with
      | some r => some [(r, Attribute.Name)]
      | none => none
    else some cf.regex_and_attribute_pairs
  match pairsOpt with
  | none => none
  | some pairs =>
    let browsers :=
      if cf.browsers.isEmpty then Browser.iter.foldl browserInsert cf.browsers
      else cf.browsers
    some { regex_and_attribute_pairs := pairs
           browsers := browsers
           master_path := cf.master_path }

/-- The message of the `expect` inside `CookieFinder::find`. -/
def findPanicMsg : String :=
  "Something went wrong loading the cookies from Firefox"

/-- The state a `find` run threads: the borrowed finder and the jar the loop
body mutates. -/
structure FindState where
  finder : CookieFinder
  jar : CookieJar
deriving DecidableEq, Repr

/-- The inner loop of `CookieFinder::find` over the browser set, for one
filter pair.  For Firefox it calls `firefox::load` with `None` as the master
path argument, exactly as `src/lib.rs` line 120 does; a load failure is the
`expect` panic carried as the error message. -/
def findBrowsers (env : Env) (pair : Regex × Attribute) :
    List Browser → CookieJar → Except String CookieJar
  | [], jar => Except.ok jar
  | Browser.Firefox :: rest, jar =>
    match firefoxLoad env jar pair none with
    | Except.ok jar2 => findBrowsers env pair rest jar2
    | Except.error _ => Except.error findPanicMsg

/-- The outer loop of `CookieFinder::find` over the filter pairs. -/
def findPairs (env : Env) (browsers : List Browser) :
    List (Regex × Attribute) → CookieJar → Except String CookieJar
  | [], jar => Except.ok jar
  | pair :: rest, jar =>
    match findBrowsers env pair browsers jar with
    | Except.ok jar2 => findPairs env browsers rest jar2
    | Except.error e => Except.error e

/-- `CookieFinder::find` on the threaded state: the body reads the borrowed
finder's pairs and browsers and mutates only the jar, so the finder component
of the state is returned unchanged. -/
def findS (env : Env) (s : FindState) : Except String FindState :=
  match findPairs env s.finder.browsers s.finder.regex_and_attribute_pairs
      s.jar with
  | Except.ok jar2 => Except.ok { finder := s.finder, jar := jar2 }
  | Except.error e => Except.error e

/-- The observable outcome of `CookieFinder::find`: the Rust signature
returns a plain `CookieJar`, so the only failure mode is the panic of the
`expect`. -/
inductive FindOutcome where
  | ok : CookieJar → FindOutcome
  | panicked : String → FindOutcome
deriving DecidableEq, Repr

/-- `CookieFinder::find`, from a fresh jar. -/
def CookieFinder.find (env : Env) (self : CookieFinder) : FindOutcome :=
  match findS env { finder := self, jar := CookieJar.new } with
  | Except.ok s => FindOutcome.ok s.jar
  | Except.error msg => FindOutcome.panicked msg

/-! ## Concrete environments and configurations used in counterexamples and
witnesses -/

/-- The default filter regex `build` injects. -/
def defaultRegex : Regex := ⟨".*"⟩

/-- A cookie sitting in the default Firefox profile store. -/
def cookieDefault : Cookie :=
  ⟨"name", "value", some "httpbin.org", some "/"⟩

/-- A cookie sitting only in the override (master path) store. -/
def cookieOverride : Cookie :=
  ⟨"name", "override-value", some "httpbin.org", some "/"⟩

/-- An environment with one default profile store and one distinct override
store, everything matching. -/
def envMaster : Env :=
  { defaultLocations := fun _ => ["profile/cookies.sqlite"]
    readStore := fun loc =>
      if loc = "profile/cookies.sqlite" then Except.ok [cookieDefault]
      else if loc = "override.sqlite" then Except.ok [cookieOverride]
      else Except.error StoreError.StoreUnavailable
    isMatch := fun _ _ => true }

/-- A configuration whose master path points at the override store. -/
def cfgMaster : CookieFinder :=
  ⟨[(defaultRegex, Attribute.Name)], [Browser.Firefox], some "override.sqlite"⟩

/-- An environment whose only store reports a schema mismatch. -/
def envFormatError : Env :=
  { defaultLocations := fun _ => ["profile/cookies.sqlite"]
    readStore := fun _ => Except.error StoreError.FormatError
    isMatch := fun _ _ => true }

/-- A default-shaped configuration: one match-all name filter, Firefox. -/
def cfgDefault : CookieFinder :=
  ⟨[(defaultRegex, Attribute.Name)], [Browser.Firefox], none⟩

/-- A store holding two records of the same name `dup` for different
domains, one matched by each of two domain filters. -/
def cookieDupA : Cookie := ⟨"dup", "v1", some "d1", none⟩

/-- The second record named `dup`, for the other domain. -/
def cookieDupB : Cookie := ⟨"dup", "v2", some "d2", none⟩

/-- An environment with one store holding both `dup` records, whose matcher
is plain string equality. -/
def envOrder : Env :=
  { defaultLocations := fun _ => ["store"]
    readStore := fun loc =>
      if loc = "store" then Except.ok [cookieDupA, cookieDupB]
      else Except.error StoreError.StoreUnavailable
    isMatch := fun p t => p == t }

/-- Domain filter `d1` first, then `d2`. -/
def cfgOrderAB : CookieFinder :=
  ⟨[(⟨"d1"⟩, Attribute.Domain), (⟨"d2"⟩, Attribute.Domain)],
    [Browser.Firefox], none⟩

/-- Domain filter `d2` first, then `d1`. -/
def cfgOrderBA : CookieFinder :=
  ⟨[(⟨"d2"⟩, Attribute.Domain), (⟨"d1"⟩, Attribute.Domain)],
    [Browser.Firefox], none⟩

/-- The two-filter builder state whose pairs are `d1` then `d2`. -/
def builderOrder : CookieFinderBuilder :=
  (CookieFinderBuilder.default.with_regexp ⟨"d1"⟩ Attribute.Domain).with_regexp
    ⟨"d2"⟩ Attribute.Domain

/-! ## Builder behaviour -/

/-- What `build` returns, for every builder state: the default filter pair is
injected when none was added, the full browser enumeration when no browser
was added, and the accumulated fields are kept otherwise.  In particular the
`Regex::new(".*")` unwrap succeeds. -/
theorem build_spec (b : CookieFinderBuilder) :
    b.build = some
      { regex_and_attribute_pairs :=
          if b.cookie_finder.regex_and_attribute_pairs.isEmpty then
            [(defaultRegex, Attribute.Name)]
          else b.cookie_finder.regex_and_attribute_pairs
        browsers :=
          if b.cookie_finder.browsers.isEmpty then [Browser.Firefox]
          else b.cookie_finder.browsers
        master_path := b.cookie_finder.master_path } := by
  have hre : Regex.new ".*" = some defaultRegex := by decide
  by_cases hp : b.cookie_finder.regex_and_attribute_pairs.isEmpty <;>
    by_cases hb : b.cookie_finder.browsers.isEmpty <;>
      simp only [CookieFinderBuilder.build, hp, hb, hre, if_true, if_false,
        Bool.false_eq_true, Browser.iter, if_pos, if_neg] <;>
      simp [List.isEmpty_iff.mp hb, browserInsert]

/-- C4: a builder on which `with_regexp` was never called (its pair list is
still empty) builds a configuration whose filter-pair sequence is exactly the
single pair of pattern `.*` against the Name attribute. -/
theorem c4_default_filter_pair (b : CookieFinderBuilder)
    (h : b.cookie_finder.regex_and_attribute_pairs = []) :
    ∃ cfg, b.build = some cfg ∧
      cfg.regex_and_attribute_pairs = [(defaultRegex, Attribute.Name)] := by
  refine ⟨_, build_spec b, ?_⟩
  simp [h]

theorem c4_default_filter_pair_witness :
    CookieFinderBuilder.default.cookie_finder.regex_and_attribute_pairs = []
      ∧ ∃ cfg, CookieFinderBuilder.default.build = some cfg ∧
        cfg.regex_and_attribute_pairs = [(defaultRegex, Attribute.Name)] :=
  ⟨rfl, c4_default_filter_pair CookieFinderBuilder.default rfl⟩

/-- C5: a builder on which `with_browser` was never called (its browser set is
still empty) builds a configuration whose browser set contains every variant
of the `Browser` enumeration. -/
theorem c5_default_browsers (b : CookieFinderBuilder)
    (h : b.cookie_finder.browsers = []) :
    ∃ cfg, b.build = some cfg ∧ ∀ br : Browser, br ∈ cfg.browsers := by
  refine ⟨_, build_spec b, ?_⟩
  intro br
  cases br
  simp [h]

theorem c5_default_browsers_witness :
    CookieFinderBuilder.default.cookie_finder.browsers = []
      ∧ ∃ cfg, CookieFinderBuilder.default.build = some cfg ∧
        ∀ br : Browser, br ∈ cfg.browsers :=
  ⟨rfl, c5_default_browsers CookieFinderBuilder.default rfl⟩

/-- C6: every configuration `build` returns has at least one filter pair and
at least one browser identity. -/
theorem c6_built_config_nonempty (b : CookieFinderBuilder) (cfg : CookieFinder)
    (h : b.build = some cfg) :
    cfg.regex_and_attribute_pairs ≠ [] ∧ cfg.browsers ≠ [] := by
  have hs := build_spec b
  rw [h] at hs
  cases Option.some.inj hs
  constructor
  · by_cases hp : b.cookie_finder.regex_and_attribute_pairs.isEmpty
    · simp [hp]
    · simpa [hp] using fun h2 => hp (List.isEmpty_iff.mpr h2)
  · by_cases hb : b.cookie_finder.browsers.isEmpty
    · simp [hb]
    · simpa [hb] using fun h2 => hb (List.isEmpty_iff.mpr h2)

theorem c6_built_config_nonempty_witness :
    cfgDefault.regex_and_attribute_pairs ≠ [] ∧ cfgDefault.browsers ≠ [] :=
  c6_built_config_nonempty CookieFinderBuilder.default cfgDefault (by decide)

/-- C7: `build` is total — the `unwrap` of compiling the default pattern `.*`
never fails, so every builder state builds successfully (the `with_*` methods
are plain total accumulators already). -/
theorem c7_build_never_fails (b : CookieFinderBuilder) :
    ∃ cfg, b.build = some cfg :=
  ⟨_, build_spec b⟩

/-- Inserting an element makes it a member of the browser set. -/
theorem browserInsert_mem (s : List Browser) (b : Browser) :
    b ∈ browserInsert s b := by
  unfold browserInsert
  by_cases h : b ∈ s <;> simp [h]

/-- Inserting an element already in the browser set leaves it unchanged. -/
theorem browserInsert_of_mem (s : List Browser) (b : Browser) (h : b ∈ s) :
    browserInsert s b = s := by
  simp [browserInsert, h]

/-- Inserting the same element twice is the same as inserting it once. -/
theorem browserInsert_idem (s : List Browser) (b : Browser) :
    browserInsert (browserInsert s b) b = browserInsert s b :=
  browserInsert_of_mem _ _ (browserInsert_mem s b)

/-- C9: `with_browser` is idempotent — repeating the same browser leaves the
builder unchanged, and (from a duplicate-free set, the `HashSet`
representation invariant) the resulting set holds that browser exactly once
and remains duplicate-free. -/
theorem c9_with_browser_idempotent :
    (∀ (b : CookieFinderBuilder) (br : Browser),
        (b.with_browser br).with_browser br = b.with_browser br) ∧
    (∀ (b : CookieFinderBuilder) (br : Browser),
        b.cookie_finder.browsers.Nodup →
          (b.with_browser br).cookie_finder.browsers.count br = 1 ∧
          (b.with_browser br).cookie_finder.browsers.Nodup) := by
  constructor
  · intro b br
    simp [CookieFinderBuilder.with_browser, browserInsert_idem]
  · intro b br hnd
    simp only [CookieFinderBuilder.with_browser]
    by_cases h : br ∈ b.cookie_finder.browsers
    · rw [browserInsert_of_mem _ _ h]
      exact ⟨List.count_eq_one_of_mem hnd h, hnd⟩
    · unfold browserInsert
      rw [if_neg h]
      constructor
      · simp [List.count_append, List.count_eq_zero_of_not_mem h]
      · simp [List.nodup_append, hnd, h]

theorem c9_with_browser_idempotent_witness :
    CookieFinderBuilder.default.cookie_finder.browsers.Nodup ∧
    (List.count Browser.Firefox
        (CookieFinderBuilder.with_browser CookieFinderBuilder.default
          Browser.Firefox).cookie_finder.browsers = 1 ∧
      List.Nodup
        (CookieFinderBuilder.with_browser CookieFinderBuilder.default
          Browser.Firefox).cookie_finder.browsers) :=
  ⟨List.nodup_nil,
    c9_with_browser_idempotent.2 CookieFinderBuilder.default Browser.Firefox
      List.nodup_nil⟩

/-! ## The find loop -/

/-- C1: the master path has no effect on `find` — the call into
`firefox::load` passes `None` for the path argument, so the override store is
never consulted: two configurations differing only in their master path
produce identical results, and a configuration pointing its master path at an
override store still yields the default store's cookies. -/
theorem c1_master_path_ignored :
    (∀ (env : Env) (ps : List (Regex × Attribute)) (bs : List Browser)
        (mp1 mp2 : Option String),
        CookieFinder.find env ⟨ps, bs, mp1⟩ =
          CookieFinder.find env ⟨ps, bs, mp2⟩) ∧
    CookieFinder.find envMaster cfgMaster = FindOutcome.ok ⟨[cookieDefault]⟩ := by
  constructor
  · intro env ps bs mp1 mp2
    simp only [CookieFinder.find, findS]
    cases findPairs env bs ps CookieJar.new <;> rfl
  · decide

/-- C10: `find` leaves the configuration it runs over unchanged — the state
it threads returns the borrowed finder exactly as it started, so the same
finder value gives the same result when reused. -/
theorem c10_find_preserves_config (env : Env) (cfg : CookieFinder)
    (s : FindState) (h : findS env ⟨cfg, CookieJar.new⟩ = Except.ok s) :
    s.finder = cfg ∧
      CookieFinder.find env s.finder = CookieFinder.find env cfg := by
  have hf : s.finder = cfg := by
    simp only [findS] at h
    cases hp : findPairs env cfg.browsers cfg.regex_and_attribute_pairs
        CookieJar.new with
    | ok jar2 =>
      rw [hp] at h
      cases h
      rfl
    | error e =>
      rw [hp] at h
      cases h
  exact ⟨hf, by rw [hf]⟩

theorem c10_find_preserves_config_witness :
    findS envMaster ⟨cfgDefault, CookieJar.new⟩ =
        Except.ok ⟨cfgDefault, ⟨[cookieDefault]⟩⟩ ∧
      ((⟨cfgDefault, ⟨[cookieDefault]⟩⟩ : FindState).finder = cfgDefault ∧
        CookieFinder.find envMaster
            (⟨cfgDefault, ⟨[cookieDefault]⟩⟩ : FindState).finder =
          CookieFinder.find envMaster cfgDefault) :=
  ⟨by decide,
    c10_find_preserves_config envMaster cfgDefault
      ⟨cfgDefault, ⟨[cookieDefault]⟩⟩ (by decide)⟩

/-- C8: iteration structure of `find` — `with_regexp` appends pairs in call
order, `build` keeps a nonempty pair list exactly as accumulated, and the
outer loop runs over filter pairs in that order (with the browsers inside),
so a later pair's insertion of a name overwrites an earlier pair's: with the
same store read under filters `d1` then `d2`, the surviving `dup` record is
the `d2` one, and swapping the two filters makes it the `d1` one. -/
theorem c8_outer_loop_pair_order :
    (∀ (b : CookieFinderBuilder) (r : Regex) (a : Attribute),
        (b.with_regexp r a).cookie_finder.regex_and_attribute_pairs =
          b.cookie_finder.regex_and_attribute_pairs ++ [(r, a)]) ∧
    (∀ (b : CookieFinderBuilder) (cfg : CookieFinder),
        b.cookie_finder.regex_and_attribute_pairs ≠ [] →
        b.build = some cfg →
        cfg.regex_and_attribute_pairs =
          b.cookie_finder.regex_and_attribute_pairs) ∧
    (CookieFinder.find envOrder cfgOrderAB = FindOutcome.ok ⟨[cookieDupB]⟩ ∧
      CookieFinder.find envOrder cfgOrderBA = FindOutcome.ok ⟨[cookieDupA]⟩) := by
  refine ⟨fun b r a => rfl, ?_, by decide, by decide⟩
  intro b cfg hne hb
  have hs := build_spec b
  rw [hb] at hs
  cases Option.some.inj hs
  have hemp : ¬ b.cookie_finder.regex_and_attribute_pairs.isEmpty :=
    fun h2 => hne (List.isEmpty_iff.mp h2)
  simp [hemp]

theorem c8_outer_loop_pair_order_witness :
    builderOrder.cookie_finder.regex_and_attribute_pairs ≠ [] ∧
    builderOrder.build = some cfgOrderAB ∧
    cfgOrderAB.regex_and_attribute_pairs =
      builderOrder.cookie_finder.regex_and_attribute_pairs :=
  ⟨by decide, by decide,
    c8_outer_loop_pair_order.2.1 builderOrder cfgOrderAB (by decide) (by decide)⟩

/-- C2 counterexample: with the only store reporting a schema mismatch,
`find` does not hand the caller a `FormatError`-kind error result — the Rust
signature returns a bare `CookieJar`, so the `expect` on the load result
aborts the call with a panic instead (`FindOutcome` has no error-result
form, only `ok` and `panicked`). -/
theorem c2_counterexample_panic_not_error_result :
    CookieFinder.find envFormatError cfgDefault =
      FindOutcome.panicked findPanicMsg := by decide

/-- C2 as amended: when a requested Firefox store opens with a mismatched
schema, `find` fails the whole invocation with the `expect` panic — it never
returns a partial or empty jar as a success — but the failure is a panic,
not a `FormatError`-kind error value handed back to the caller. -/
theorem c2_format_error_aborts_find (env : Env) (cfg : CookieFinder)
    (p : Regex × Attribute) (rest : List (Regex × Attribute)) (l : String)
    (hp : cfg.regex_and_attribute_pairs = p :: rest)
    (hb : cfg.browsers = [Browser.Firefox])
    (hl : env.defaultLocations Browser.Firefox = [l])
    (hr : env.readStore l = Except.error StoreError.FormatError) :
    CookieFinder.find env cfg = FindOutcome.panicked findPanicMsg := by
  simp only [CookieFinder.find, findS, hp, hb]
  simp [findPairs, findBrowsers, firefoxLoad, locate, loadLocations, hl, hr]

theorem c2_format_error_aborts_find_witness :
    envFormatError.readStore "profile/cookies.sqlite" =
        Except.error StoreError.FormatError ∧
      CookieFinder.find envFormatError cfgDefault =
        FindOutcome.panicked findPanicMsg :=
  ⟨rfl,
    c2_format_error_aborts_find envFormatError cfgDefault
      (defaultRegex, Attribute.Name) [] "profile/cookies.sqlite"
      rfl rfl rfl rfl⟩

/-! ## Merge semantics of the output collection -/

/-- Records surviving the name filter of an `add` never carry the removed
name. -/
theorem countP_name_filter_self (l : List Cookie) (m : String) :
    (l.filter (fun d => d.name != m)).countP (fun c => c.name == m) = 0 := by
  induction l with
  | nil => rfl
  | cons d tl ih =>
    by_cases hd : d.name = m <;>
      simp [List.filter_cons, hd, List.countP_cons, ih]

/-- The name filter of an `add` does not change the count of any other
name. -/
theorem countP_name_filter_ne (l : List Cookie) (m n : String) (hmn : m ≠ n) :
    (l.filter (fun d => d.name != m)).countP (fun c => c.name == n) =
      l.countP (fun c => c.name == n) := by
  induction l with
  | nil => rfl
  | cons d tl ih =>
    by_cases hd : d.name = m
    · simp [List.filter_cons, hd, List.countP_cons, ih,
        show (m == n) = false from beq_eq_false_iff_ne.mpr hmn]
    · simp [List.filter_cons, hd, List.countP_cons, ih]

/-- `add` leaves exactly one record under the inserted name and does not
touch the count of other names. -/
theorem countName_add (jar : CookieJar) (c : Cookie) (n : String) :
    (jar.add c).countName n = if c.name = n then 1 else jar.countName n := by
  unfold CookieJar.add CookieJar.countName
  by_cases h : c.name = n
  · subst h
    simp [List.countP_cons, countP_name_filter_self]
  · simp [List.countP_cons, h, countP_name_filter_ne _ _ _ h]

/-- A lookup after an `add` returns the record just inserted. -/
theorem get_add_self (jar : CookieJar) (c : Cookie) :
    (jar.add c).get c.name = some c := by
  simp [CookieJar.add, CookieJar.get, List.find?_cons]

/-- The output-collection invariant: at most one record per name. -/
def JarDedup (jar : CookieJar) : Prop :=
  ∀ n, jar.countName n ≤ 1

theorem jarDedup_new : JarDedup CookieJar.new := by
  intro n
  simp [CookieJar.new, CookieJar.countName]

theorem jarDedup_add (jar : CookieJar) (c : Cookie) (h : JarDedup jar) :
    JarDedup (jar.add c) := by
  intro n
  rw [countName_add]
  by_cases hc : c.name = n
  · simp [hc]
  · simpa [hc] using h n

theorem jarDedup_foldl (env : Env) (pair : Regex × Attribute)
    (records : List Cookie) (jar : CookieJar) (h : JarDedup jar) :
    JarDedup
      (records.foldl
        (fun j c => if matchesRecord env c pair then CookieJar.add j c else j)
        jar) := by
  induction records generalizing jar with
  | nil => exact h
  | cons c tl ih =>
    simp only [List.foldl_cons]
    cases hm : matchesRecord env c pair
    · simpa [hm] using ih jar h
    · simpa [hm] using ih _ (jarDedup_add jar c h)

theorem jarDedup_loadLocations (env : Env) (pair : Regex × Attribute)
    (locs : List String) (jar jar2 : CookieJar) (h : JarDedup jar)
    (he : loadLocations env pair locs jar = Except.ok jar2) :
    JarDedup jar2 := by
  induction locs generalizing jar with
  | nil =>
    unfold loadLocations at he
    cases he
    exact h
  | cons loc rest ih =>
    unfold loadLocations at he
    cases hr : env.readStore loc with
    | error e =>
      cases e
      · rw [hr] at he
        exact ih jar h he
      · rw [hr] at he
        cases he
    | ok records =>
      rw [hr] at he
      exact ih _ (jarDedup_foldl env pair records jar h) he

theorem jarDedup_findBrowsers (env : Env) (pair : Regex × Attribute)
    (bs : List Browser) (jar jar2 : CookieJar) (h : JarDedup jar)
    (he : findBrowsers env pair bs jar = Except.ok jar2) :
    JarDedup jar2 := by
  induction bs generalizing jar with
  | nil =>
    unfold findBrowsers at he
    cases he
    exact h
  | cons b rest ih =>
    cases b
    unfold findBrowsers at he
    cases hl : firefoxLoad env jar pair none with
    | ok j2 =>
      rw [hl] at he
      exact ih j2 (jarDedup_loadLocations env pair _ jar j2 h hl) he
    | error e =>
      rw [hl] at he
      cases he

theorem jarDedup_findPairs (env : Env) (bs : List Browser)
    (ps : List (Regex × Attribute)) (jar jar2 : CookieJar) (h : JarDedup jar)
    (he : findPairs env bs ps jar = Except.ok jar2) :
    JarDedup jar2 := by
  induction ps generalizing jar with
  | nil =>
    unfold findPairs at he
    cases he
    exact h
  | cons p rest ih =>
    unfold findPairs at he
    cases hb : findBrowsers env p bs jar with
    | ok j2 =>
      rw [hb] at he
      exact ih j2 (jarDedup_findBrowsers env p bs jar j2 h hb) he
    | error e =>
      rw [hb] at he
      cases he

/-- C3: the output collection is keyed by name with a last-write-wins merge —
inserting a second record of the same name leaves exactly one record under
that name, the one inserted last (the first one is gone when it differed),
and every jar a successful `find` returns holds at most one record per
name. -/
theorem c3_merge_last_write_wins :
    (∀ (jar : CookieJar) (c1 c2 : Cookie), c1.name = c2.name →
        ((jar.add c1).add c2).get c2.name = some c2 ∧
        ((jar.add c1).add c2).countName c2.name = 1 ∧
        (c1 ≠ c2 → c1 ∉ ((jar.add c1).add c2).cookies)) ∧
    (∀ (env : Env) (cfg : CookieFinder) (jar : CookieJar) (n : String),
        CookieFinder.find env cfg = FindOutcome.ok jar →
        jar.countName n ≤ 1) := by
  constructor
  · intro jar c1 c2 hname
    refine ⟨get_add_self _ c2, ?_, ?_⟩
    · rw [countName_add]
      simp
    · intro hne hmem
      simp only [CookieJar.add, List.mem_cons] at hmem
      rcases hmem with h | h
      · exact hne h
      · rcases List.mem_filter.mp h with ⟨_, hkeep⟩
        rw [hname] at hkeep
        simp at hkeep
  · intro env cfg jar n hfind
    simp only [CookieFinder.find, findS] at hfind
    cases hp : findPairs env cfg.browsers cfg.regex_and_attribute_pairs
        CookieJar.new with
    | ok j2 =>
      rw [hp] at hfind
      cases hfind
      exact jarDedup_findPairs env _ _ _ _ jarDedup_new hp n
    | error e =>
      rw [hp] at hfind
      cases hfind

theorem c3_merge_last_write_wins_witness :
    cookieDupA.name = cookieDupB.name ∧
    (((CookieJar.new.add cookieDupA).add cookieDupB).get cookieDupB.name =
        some cookieDupB ∧
      ((CookieJar.new.add cookieDupA).add cookieDupB).countName
          cookieDupB.name = 1 ∧
      (cookieDupA ≠ cookieDupB →
        cookieDupA ∉ ((CookieJar.new.add cookieDupA).add cookieDupB).cookies)) ∧
    CookieJar.countName ⟨[cookieDupB]⟩ "dup" ≤ 1 :=
  ⟨rfl, c3_merge_last_write_wins.1 CookieJar.new cookieDupA cookieDupB rfl,
    c3_merge_last_write_wins.2 envOrder cfgOrderAB ⟨[cookieDupB]⟩ "dup"
      (by decide)⟩
